import Mathlib

/-!
Verification development for the `vanguard-vision` armor-detection pipeline.

The embedding models:

* `BaseDetectorNode::detectArmors`
  (src/rm_auto_aim/armor_detector/src/base_detector_node.cpp, lines 114-176):
  per-frame orchestration, run-time parameter reads, and the debug branch.
* `BaseDetectorNode::publishMarkers` (same file, lines 226-232).
* `Detector::matchLights`, `DepthProcessor::getPosition` and
  `DepthProcessor::calculateDistanceToCenter` have no implementation under
  `src/` (only their declarations and call sites appear there); where a claim
  depends on their internals they are modelled from the spec, with doc
  comments starting `Modelled from the spec:`.

Conventions: C++ `double` / `float` values are modelled as `ℚ` (exact
rationals); images and other OpenCV payloads whose contents no claim inspects
are carried as abstract `Nat` identifiers, and the OpenCV routines acting on
them (`cv::resize` resampling, `cv::putText`, result drawing, `cv::vconcat`)
are fields of an environment structure `CvEnv` of opaque pure functions.
The stage functions of `Detector` and `NumberClassifier`, whose code is not
under `src/`, enter `detectArmors` as structure fields of pure functions, so
every theorem about the orchestration quantifies over their behavior.
-/

namespace RmAutoAim

/-- Abstract image payload (no claim inspects pixel contents). -/
abbrev Image := Nat

/-- Light colors; the C++ code encodes `RED = 0`, `BLUE = 1`. -/
inductive LightColor where
  | red
  | blue
deriving DecidableEq, Repr, Inhabited

/-- Armor size classes (spec §3: SMALL / LARGE). -/
inductive ArmorType where
  | small
  | large
deriving DecidableEq, Repr, Inhabited

/-- A `cv::Mat` number image: dimensions plus an abstract content id. -/
structure NumberImage where
  width : Nat
  height : Nat
  content : Nat
deriving DecidableEq, Repr, Inhabited

/-- A detected light bar (spec §3): color tag, center point, rotated-rect
axis, total length, width, and tilt angle in degrees. -/
structure Light where
  color : LightColor
  centerX : ℚ
  centerY : ℚ
  length : ℚ
  width : ℚ
  axisX : ℚ
  axisY : ℚ
  tilt : ℚ
deriving DecidableEq, Repr, Inhabited

/-- An armor candidate (spec §3): two lights, size class, numeral image,
classification label and confidence. -/
structure Armor where
  leftLight : Light
  rightLight : Light
  armorType : ArmorType
  numberImg : NumberImage
  label : String
  confidence : ℚ
deriving DecidableEq, Repr, Inhabited

/-- One entry of `detector_->debug_lights.data`: the horizontal center used
by the sort comparator at line 149, plus the remaining payload, abstract. -/
structure DebugLightInfo where
  center_x : ℚ
  payload : Nat
deriving DecidableEq, Repr, Inhabited

/-- One entry of `detector_->debug_armors.data`: the horizontal center used
by the sort comparator at line 152, plus the remaining payload, abstract. -/
structure DebugArmorInfo where
  center_x : ℚ
  payload : Nat
deriving DecidableEq, Repr, Inhabited

/-- The `Detector` object as `detectArmors` uses it: its stage methods are
pure functions of the current `min_lightness` and `detect_color` members
(assigned at lines 122-123 immediately before the calls) and their image /
light inputs.  `findLights` also yields the `debug_lights` entries it fills,
and `matchLights` the `debug_armors` entries. -/
structure Detector where
  preprocessImage : ℤ → ℤ → Image → Image
  findLights : ℤ → ℤ → Image → Image → List Light × List DebugLightInfo
  matchLights : List Light → List Armor × List DebugArmorInfo

/-- The `NumberClassifier` as `detectArmors` uses it: `extractNumbers`
rewrites each armor's numeral image from the frame, `doClassify` uses the
current `threshold` member (assigned at line 132 right before the call) and
rewrites labels / confidences, possibly dropping armors. -/
structure NumberClassifier where
  extractNumbers : Image → List Armor → List Armor
  doClassify : ℚ → List Armor → List Armor

/-- The run-time parameter store behind `get_parameter`, which an external
watcher may change between reads: each parameter is a function of an abstract
read instant. -/
structure ParamStore where
  minLightness : Nat → ℤ
  detectColor : Nat → ℤ
  classifierThreshold : Nat → ℚ

/-- Read instant of the `get_parameter` calls at lines 122-123 (frame start). -/
def frameStart : Nat := 0

/-- Read instant of the `get_parameter("classifier.threshold")` call at line
132, after `extractNumbers` and before `doClassify`. -/
def classifyTime : Nat := 1

/-- Opaque pure models of the OpenCV routines `detectArmors` calls whose
pixel-level behavior no claim inspects. -/
structure CvEnv where
  resample : NumberImage → Nat → Nat → Nat
  putLatencyText : Image → Image
  drawResults : Image → List Light → List Armor → Image
  vconcat : List NumberImage → NumberImage

/-- `cv::resize(src, dst, cv::Size(w, h))`: the output has exactly the
requested dimensions; the resampled content comes from the environment. -/
def cvResize (env : CvEnv) (im : NumberImage) (w h : Nat) : NumberImage :=
  { width := w, height := h, content := env.resample im w h }

/-- Pipeline stages of `detectArmors`, in event-trace form. -/
inductive Stage where
  | preprocess
  | findLights
  | matchLights
  | extractNumbers
  | classify
deriving DecidableEq, Repr

/-- Everything the debug branch (lines 137-173) publishes. -/
structure DebugRecord where
  binaryImg : Image
  debugLights : List DebugLightInfo
  debugArmors : List DebugArmorInfo
  numberImgs : Option NumberImage
  finalImg : Image
deriving DecidableEq, Repr

/-- Result of one `detectArmors` call: the returned armor vector, the trace
of pipeline stages executed, and the debug record when `debug_` was set. -/
structure DetectResult where
  armors : List Armor
  trace : List Stage
  debug : Option DebugRecord
deriving DecidableEq, Repr

/-- Comparator of the `std::sort` at lines 147-149 (ascending `center_x`). -/
def debugLightLe (a b : DebugLightInfo) : Prop := a.center_x ≤ b.center_x

instance : DecidableRel debugLightLe := fun a b =>
  inferInstanceAs (Decidable (a.center_x ≤ b.center_x))

instance : IsTotal DebugLightInfo debugLightLe :=
  ⟨fun a b => le_total a.center_x b.center_x⟩

instance : IsTrans DebugLightInfo debugLightLe :=
  ⟨fun _ _ _ h1 h2 => le_trans h1 h2⟩

/-- Comparator of the `std::sort` at lines 150-152 (ascending `center_x`). -/
def debugArmorLe (a b : DebugArmorInfo) : Prop := a.center_x ≤ b.center_x

instance : DecidableRel debugArmorLe := fun a b =>
  inferInstanceAs (Decidable (a.center_x ≤ b.center_x))

instance : IsTotal DebugArmorInfo debugArmorLe :=
  ⟨fun a b => le_total a.center_x b.center_x⟩

instance : IsTrans DebugArmorInfo debugArmorLe :=
  ⟨fun _ _ _ h1 h2 => le_trans h1 h2⟩

/-- `BaseDetectorNode::detectArmors` (lines 114-176).

Line by line: convert the message (the abstract image passes through);
read `min_lightness` and `detect_color` (lines 122-123, instant
`frameStart`); `preprocessImage`, `findLights`, `matchLights`
(lines 125-127); if the armor vector is non-empty, `extractNumbers`, then
read `classifier.threshold` (line 132, instant `classifyTime`), then
`doClassify` (lines 130-134).  If `debug_` is set (lines 137-173): publish
the binary image, sort `debug_lights` / `debug_armors` by `center_x` and
publish them, and if the armor vector is non-empty resize each armor's
`number_img` in place to 20x28 (lines 157-169) and publish their vertical
concatenation; draw results onto the latency-annotated frame and publish it.
Return the armor vector (line 175).  `std::sort` is modelled by
`List.insertionSort`, which agrees with it on the observable contract
(a sorted permutation). -/
def detectArmors (env : CvEnv) (det : Detector) (cls : NumberClassifier)
    (debugFlag : Bool) (store : ParamStore) (imgMsg : Image) : DetectResult :=
  let img := imgMsg
  let minL := store.minLightness frameStart
  let color := store.detectColor frameStart
  let binaryImg := det.preprocessImage minL color img
  let lightsOut := det.findLights minL color img binaryImg
  let lights := lightsOut.1
  let matched := (det.matchLights lights).1
  let armors1 :=
    if matched.isEmpty then matched
    else cls.doClassify (store.classifierThreshold classifyTime)
      (cls.extractNumbers img matched)
  let trace := [Stage.preprocess, Stage.findLights, Stage.matchLights] ++
    (if matched.isEmpty then [] else [Stage.extractNumbers, Stage.classify])
  if debugFlag then
    let armors2 :=
      if armors1.isEmpty then armors1
      else armors1.map fun a => { a with numberImg := cvResize env a.numberImg 20 28 }
    let dbg : DebugRecord :=
      { binaryImg := binaryImg
        debugLights := List.insertionSort debugLightLe lightsOut.2
        debugArmors := List.insertionSort debugArmorLe (det.matchLights lights).2
        numberImgs :=
          if armors2.isEmpty then none
          else some (env.vconcat (armors2.map Armor.numberImg))
        finalImg := env.drawResults (env.putLatencyText img) lights armors2 }
    { armors := armors2, trace := trace, debug := some dbg }
  else
    { armors := armors1, trace := trace, debug := none }

/-- An armor with its numeral image blanked, for comparisons that ignore the
`number_img` field. -/
def Armor.eraseImg (a : Armor) : Armor := { a with numberImg := ⟨0, 0, 0⟩ }

/-- Spec §3/§6 armor-matching parameters (the fields declared at
base_detector_node.cpp lines 103-109). -/
structure ArmorParams where
  min_light_ratio : ℚ
  min_small_center_distance : ℚ
  max_small_center_distance : ℚ
  min_large_center_distance : ℚ
  max_large_center_distance : ℚ
  max_angle : ℚ
deriving DecidableEq, Repr

/-- Sort rank of a color (RED = 0 before BLUE = 1). -/
def colorRank : LightColor → Nat
  | LightColor.red => 0
  | LightColor.blue => 1

/-- Modelled from the spec (§4.2): the light order "by color then by
horizontal center position" used before pairing. -/
def lightOrder (a b : Light) : Prop :=
  colorRank a.color < colorRank b.color ∨
    (colorRank a.color = colorRank b.color ∧ a.centerX ≤ b.centerX)

instance : DecidableRel lightOrder := fun a b =>
  inferInstanceAs (Decidable (colorRank a.color < colorRank b.color ∨
    (colorRank a.color = colorRank b.color ∧ a.centerX ≤ b.centerX)))

/-- Modelled from the spec (§4.2): average length of a candidate light pair. -/
def avgLength (a b : Light) : ℚ := (a.length + b.length) / 2

/-- Modelled from the spec (§4.2): ratio of the two light lengths (shorter
over longer). -/
def lightLengthRatio (a b : Light) : ℚ :=
  min a.length b.length / max a.length b.length

/-- Squared Euclidean distance between two light centers. -/
def centerDistSq (a b : Light) : ℚ :=
  (a.centerX - b.centerX) ^ 2 + (a.centerY - b.centerY) ^ 2

/-- Modelled from the spec (§4.2): size class from the normalized center
distance (distance between centers over average light length): SMALL band,
else LARGE band, else rejected.  The interval tests are phrased on squares,
which is equivalent for the spec's nonnegative distance bounds and positive
light lengths and keeps the definition executable over ℚ. -/
def armorTypeOf (p : ArmorParams) (a b : Light) : Option ArmorType :=
  let d2 := centerDistSq a b
  let l2 := avgLength a b ^ 2
  if p.min_small_center_distance ^ 2 * l2 ≤ d2 ∧
      d2 ≤ p.max_small_center_distance ^ 2 * l2 then
    some ArmorType.small
  else if p.min_large_center_distance ^ 2 * l2 ≤ d2 ∧
      d2 ≤ p.max_large_center_distance ^ 2 * l2 then
    some ArmorType.large
  else none

/-- Modelled from the spec (§4.2): a light pair is a valid armor candidate
when the lights share a color, their length ratio is at least
`min_light_ratio`, the tilt test passes (`angleOk`, the trigonometric
angle-versus-`max_angle` comparison, kept abstract because no claim
constrains it), and the normalized center distance is in the SMALL or
LARGE band. -/
def pairType (p : ArmorParams) (angleOk : Light → Light → Bool)
    (a b : Light) : Option ArmorType :=
  if a.color = b.color ∧ p.min_light_ratio ≤ lightLengthRatio a b ∧ angleOk a b then
    armorTypeOf p a b
  else none

/-- All index pairs (i, j) with i < j < n in double-loop iteration order
(outer i ascending, inner j > i ascending). -/
def allPairs (n : Nat) : List (Nat × Nat) :=
  (List.range n).flatMap fun i =>
    (List.range n).filterMap fun j => if i < j then some (i, j) else none

/-- Modelled from the spec (§4.2): ordered greedy pairing.  Scan candidate
index pairs in iteration order; accept a pair when both lights are still
unused and the pair is valid, consuming both lights ("Each light may
participate in at most one output Armor ... no armor may reuse a light
already consumed by an earlier pairing in the same frame"). -/
def greedyPairs (valid : Nat → Nat → Bool) :
    List (Nat × Nat) → List Nat → List (Nat × Nat)
  | [], _ => []
  | (i, j) :: rest, used =>
    if i ∉ used ∧ j ∉ used ∧ valid i j then
      (i, j) :: greedyPairs valid rest (i :: j :: used)
    else greedyPairs valid rest used

/-- The indices of all lights consumed by a list of matched pairs, in
order. -/
def pairFlatten : List (Nat × Nat) → List Nat
  | [] => []
  | (i, j) :: rest => i :: j :: pairFlatten rest

/-- Modelled from the spec (§4.2): the lights as sorted before pairing. -/
def sortedLights (lights : List Light) : List Light :=
  List.insertionSort lightOrder lights

/-- Modelled from the spec (§4.2): the index pairs (into the sorted light
list) that `matchLights` turns into armors. -/
def matchedIndexPairs (p : ArmorParams) (angleOk : Light → Light → Bool)
    (lights : List Light) : List (Nat × Nat) :=
  let s := sortedLights lights
  greedyPairs
    (fun i j => (pairType p angleOk (s.getD i default) (s.getD j default)).isSome)
    (allPairs s.length) []

/-- An armor built from a matched pair (numeral image, label and confidence
are filled later by the classifier). -/
def mkArmor (a b : Light) (t : ArmorType) : Armor :=
  { leftLight := a, rightLight := b, armorType := t,
    numberImg := default, label := "", confidence := 0 }

/-- Modelled from the spec: `Detector::matchLights` — its implementation is
not under `src/` (only its call site, base_detector_node.cpp line 127).
Spec §4.2: sort lights by color then horizontal center; scan pairs in
order; each accepted pair consumes both of its lights. -/
def matchLights (p : ArmorParams) (angleOk : Light → Light → Bool)
    (lights : List Light) : List Armor :=
  let s := sortedLights lights
  (matchedIndexPairs p angleOk lights).map fun ij =>
    mkArmor (s.getD ij.1 default) (s.getD ij.2 default)
      ((pairType p angleOk (s.getD ij.1 default) (s.getD ij.2 default)).getD
        ArmorType.small)

/-- Camera intrinsics held by `DepthProcessor`
(depth_processor.hpp lines 27-32). -/
structure DepthProcessor where
  fx : ℚ
  fy : ℚ
  cx : ℚ
  cy : ℚ
deriving DecidableEq, Repr

/-- Modelled from the spec: the `DepthProcessor` constructor (declared at
depth_processor.hpp line 18; no implementation under `src/`): read the
pinhole intrinsics from the row-major 3x3 camera matrix
[[fx 0 cx] [0 fy cy] [0 0 1]]. -/
def DepthProcessor.ofCameraMatrix (m : Fin 9 → ℚ) : DepthProcessor :=
  { fx := m 0, fy := m 4, cx := m 2, cy := m 5 }

/-- A depth-map sample: either NaN (missing) or a finite value in the map's
units.  This models the floating-point sample without floating-point
arithmetic; the only facts the spec attaches to a sample are NaN-ness and
sign. -/
inductive DepthSample where
  | nan
  | val (d : ℚ)
deriving DecidableEq, Repr

/-- A depth map: one sample per integer pixel coordinate. -/
def DepthMap := ℤ → ℤ → DepthSample

/-- The failure condition of spec §7 raised by `getPosition`. -/
inductive DepthError where
  | InvalidDepth
deriving DecidableEq, Repr

/-- A camera-frame 3D point (spec §3 Position3D). -/
structure Point3 where
  x : ℚ
  y : ℚ
  z : ℚ
deriving DecidableEq, Repr

/-- Modelled from the spec: `DepthProcessor::getPosition` (declared at
depth_processor.hpp lines 21-22; no implementation under `src/`).  Spec
§4.4: sample the depth map at the nearest pixel to `imagePoint`; if the
sample is NaN, zero or negative, fail with `InvalidDepth` rather than
returning a fabricated position; otherwise return the pinhole
back-projection X = (u - cx) * d / fx, Y = (v - cy) * d / fy, Z = d. -/
def DepthProcessor.getPosition (dp : DepthProcessor) (depthImage : DepthMap)
    (imagePoint : ℚ × ℚ) : Except DepthError Point3 :=
  match depthImage (round imagePoint.1) (round imagePoint.2) with
  | DepthSample.nan => Except.error DepthError.InvalidDepth
  | DepthSample.val d =>
    if d ≤ 0 then Except.error DepthError.InvalidDepth
    else Except.ok
      { x := (imagePoint.1 - dp.cx) * d / dp.fx
        y := (imagePoint.2 - dp.cy) * d / dp.fy
        z := d }

/-- The armor center: midpoint of the two light centers (spec §3). -/
def armorCenter (a : Armor) : ℚ × ℚ :=
  ((a.leftLight.centerX + a.rightLight.centerX) / 2,
   (a.leftLight.centerY + a.rightLight.centerY) / 2)

/-- An armor after optional depth processing: the armor record with its 2D
and classification data, plus an optional 3D position. -/
structure LocatedArmor where
  armor : Armor
  position : Option Point3
deriving DecidableEq, Repr

/-- Modelled from the spec (§4.5, §7): the caller of `getPosition` keeps the
armor with its 2D / classification data intact and merely omits the 3D
position when the depth sample is invalid. -/
def attachPosition (dp : DepthProcessor) (depthImage : DepthMap)
    (a : Armor) : LocatedArmor :=
  match dp.getPosition depthImage (armorCenter a) with
  | Except.error _ => { armor := a, position := none }
  | Except.ok pos => { armor := a, position := some pos }

/-- Modelled from the spec: `DepthProcessor::calculateDistanceToCenter`
(declared at depth_processor.hpp line 25; no implementation under `src/`).
Spec §4.4: the Euclidean pixel distance between `imagePoint` and the
image's optical center (cx, cy). -/
noncomputable def DepthProcessor.calculateDistanceToCenter
    (dp : DepthProcessor) (imagePoint : ℚ × ℚ) : ℝ :=
  Real.sqrt (((imagePoint.1 : ℝ) - (dp.cx : ℝ)) ^ 2 +
    ((imagePoint.2 : ℝ) - (dp.cy : ℝ)) ^ 2)

/-- `visualization_msgs::msg::Marker` ADD / DELETE actions. -/
inductive MarkerAction where
  | add
  | delete
deriving DecidableEq, Repr

/-- A marker, reduced to the field `publishMarkers` writes plus an abstract
id for the remaining payload. -/
structure Marker where
  action : MarkerAction
  payload : Nat
deriving DecidableEq, Repr

/-- The node state `publishMarkers` consumes: the armors of the current
`armors_msg_` (abstract ids), and the `position_marker_` / `marker_array_`
members. -/
structure MarkerState where
  armorsMsgArmors : List Nat
  positionMarker : Marker
  markerArray : List Marker
deriving DecidableEq, Repr

/-- `BaseDetectorNode::publishMarkers` (lines 226-232): set the position
marker's action to DELETE when `armors_msg_.armors` is empty and to ADD
otherwise, append it to the marker array, and publish the array.  Returns
the updated node state and the published array. -/
def publishMarkers (st : MarkerState) : MarkerState × List Marker :=
  let pm := { st.positionMarker with
    action := if st.armorsMsgArmors.isEmpty then MarkerAction.delete
      else MarkerAction.add }
  let arr := st.markerArray ++ [pm]
  ({ st with positionMarker := pm, markerArray := arr }, arr)

/-- The binarized image of a frame (result of the call at line 125). -/
def frameBinary (det : Detector) (store : ParamStore) (img : Image) : Image :=
  det.preprocessImage (store.minLightness frameStart)
    (store.detectColor frameStart) img

/-- The lights found in a frame (result of the call at line 126). -/
def frameLights (det : Detector) (store : ParamStore) (img : Image) : List Light :=
  (det.findLights (store.minLightness frameStart) (store.detectColor frameStart)
    img (frameBinary det store img)).1

/-- The `debug_lights` entries filled while finding lights. -/
def frameDebugLights (det : Detector) (store : ParamStore) (img : Image) :
    List DebugLightInfo :=
  (det.findLights (store.minLightness frameStart) (store.detectColor frameStart)
    img (frameBinary det store img)).2

/-- The matched armors of a frame (result of the call at line 127). -/
def frameMatched (det : Detector) (store : ParamStore) (img : Image) : List Armor :=
  (det.matchLights (frameLights det store img)).1

/-- The `debug_armors` entries filled while matching. -/
def frameDebugArmors (det : Detector) (store : ParamStore) (img : Image) :
    List DebugArmorInfo :=
  (det.matchLights (frameLights det store img)).2

/-- The armor vector after the conditional classification block
(lines 130-134). -/
def frameClassified (det : Detector) (cls : NumberClassifier)
    (store : ParamStore) (img : Image) : List Armor :=
  if (frameMatched det store img).isEmpty then frameMatched det store img
  else cls.doClassify (store.classifierThreshold classifyTime)
    (cls.extractNumbers img (frameMatched det store img))

/-- The armor vector after the debug branch's in-place 20x28 resize of each
numeral image (lines 157-164). -/
def frameResized (env : CvEnv) (det : Detector) (cls : NumberClassifier)
    (store : ParamStore) (img : Image) : List Armor :=
  if (frameClassified det cls store img).isEmpty then
    frameClassified det cls store img
  else (frameClassified det cls store img).map
    fun a => { a with numberImg := cvResize env a.numberImg 20 28 }

/-- The stage trace of a frame. -/
def frameTrace (det : Detector) (store : ParamStore) (img : Image) : List Stage :=
  [Stage.preprocess, Stage.findLights, Stage.matchLights] ++
    (if (frameMatched det store img).isEmpty then []
     else [Stage.extractNumbers, Stage.classify])

/-- The debug record published by the debug branch. -/
def frameDebugRecord (env : CvEnv) (det : Detector) (cls : NumberClassifier)
    (store : ParamStore) (img : Image) : DebugRecord :=
  { binaryImg := frameBinary det store img
    debugLights := List.insertionSort debugLightLe (frameDebugLights det store img)
    debugArmors := List.insertionSort debugArmorLe (frameDebugArmors det store img)
    numberImgs :=
      if (frameResized env det cls store img).isEmpty then none
      else some (env.vconcat ((frameResized env det cls store img).map Armor.numberImg))
    finalImg := env.drawResults (env.putLatencyText img)
      (frameLights det store img) (frameResized env det cls store img) }

/-! Concrete fixtures used by counterexamples and witnesses. -/

/-- A concrete light at x = 0. -/
def lightA : Light :=
  { color := LightColor.red, centerX := 0, centerY := 0, length := 10,
    width := 2, axisX := 0, axisY := 1, tilt := 0 }

/-- A concrete light at x = 15. -/
def lightB : Light := { lightA with centerX := 15 }

/-- A concrete armor whose numeral image is 10x10 (not 20x28). -/
def armorAB : Armor :=
  { leftLight := lightA, rightLight := lightB, armorType := ArmorType.small,
    numberImg := ⟨10, 10, 5⟩, label := "", confidence := 0 }

/-- A concrete detector producing two lights and one armor. -/
def detC : Detector :=
  { preprocessImage := fun _ _ i => i
    findLights := fun _ _ _ _ => ([lightA, lightB], [⟨0, 0⟩, ⟨15, 1⟩])
    matchLights := fun _ => ([armorAB], [⟨7, 2⟩]) }

/-- A concrete detector finding nothing. -/
def detEmpty : Detector :=
  { preprocessImage := fun _ _ i => i
    findLights := fun _ _ _ _ => ([], [])
    matchLights := fun _ => ([], []) }

/-- A concrete classifier that keeps every armor only when the threshold it
is handed is at most 0 (so its output is sensitive to the threshold read). -/
def clsC : NumberClassifier :=
  { extractNumbers := fun _ as => as
    doClassify := fun th as => if th.num ≤ 0 then as else [] }

/-- A concrete OpenCV environment. -/
def envC : CvEnv :=
  { resample := fun im _ _ => im.content
    putLatencyText := fun i => i + 1
    drawResults := fun i _ _ => i
    vconcat := fun _ => ⟨0, 0, 0⟩ }

/-- A parameter store that is constant over time. -/
def storeC : ParamStore :=
  { minLightness := fun _ => 160
    detectColor := fun _ => 0
    classifierThreshold := fun _ => 0 }

/-- A store agreeing with `storeC` at frame start whose classifier
threshold has changed to 1 by the mid-frame read instant. -/
def storeD : ParamStore :=
  { minLightness := fun _ => 160
    detectColor := fun _ => 0
    classifierThreshold := fun t => if t = frameStart then 0 else 1 }

/-- A store agreeing with `storeC` at every instant the frame actually
reads, while differing at other instants. -/
def storeE : ParamStore :=
  { minLightness := fun _ => 160
    detectColor := fun _ => 0
    classifierThreshold := fun t => if t = classifyTime then 0 else 7 }

/-- Armor-matching parameters generous enough to accept the fixture pair. -/
def paramsC : ArmorParams :=
  { min_light_ratio := 1 / 2, min_small_center_distance := 1,
    max_small_center_distance := 3, min_large_center_distance := 4,
    max_large_center_distance := 5, max_angle := 35 }

/-! Helper lemmas about the greedy pairing. -/

theorem greedyPairs_subset (valid : Nat → Nat → Bool) :
    ∀ (ps : List (Nat × Nat)) (used : List Nat) (q : Nat × Nat),
      q ∈ greedyPairs valid ps used → q ∈ ps := by
  intro ps
  induction ps with
  | nil => intro used q h; simp [greedyPairs] at h
  | cons p rest ih =>
    intro used q h
    obtain ⟨i, j⟩ := p
    simp only [greedyPairs] at h
    split at h
    · rcases List.mem_cons.mp h with h | h
      · exact h ▸ List.mem_cons_self _ _
      · exact List.mem_cons_of_mem _ (ih _ q h)
    · exact List.mem_cons_of_mem _ (ih _ q h)

theorem greedyPairs_nodup (valid : Nat → Nat → Bool) :
    ∀ (ps : List (Nat × Nat)) (used : List Nat),
      (∀ q ∈ ps, q.1 ≠ q.2) →
      (pairFlatten (greedyPairs valid ps used)).Nodup ∧
      ∀ x ∈ pairFlatten (greedyPairs valid ps used), x ∉ used := by
  intro ps
  induction ps with
  | nil => intro used _; simp [greedyPairs, pairFlatten]
  | cons p rest ih =>
    intro used hne
    obtain ⟨i, j⟩ := p
    have hij : i ≠ j := hne (i, j) (List.mem_cons_self _ _)
    have hrest : ∀ q ∈ rest, q.1 ≠ q.2 := fun q hq => hne q (List.mem_cons_of_mem _ hq)
    simp only [greedyPairs]
    split
    · rename_i hcond
      obtain ⟨hi, hj, -⟩ := hcond
      obtain ⟨hnd, hnotin⟩ := ih (i :: j :: used) hrest
      have hinot : i ∉ pairFlatten (greedyPairs valid rest (i :: j :: used)) :=
        fun hmem => (hnotin i hmem) (List.mem_cons_self _ _)
      have hjnot : j ∉ pairFlatten (greedyPairs valid rest (i :: j :: used)) :=
        fun hmem => (hnotin j hmem) (List.mem_cons_of_mem _ (List.mem_cons_self _ _))
      constructor
      · simp only [pairFlatten, List.nodup_cons, List.mem_cons]
        refine ⟨?_, hjnot, hnd⟩
        push_neg
        exact ⟨hij, hinot⟩
      · intro x hx
        simp only [pairFlatten, List.mem_cons] at hx
        rcases hx with rfl | rfl | hx
        · exact hi
        · exact hj
        · exact fun hxu =>
            (hnotin x hx) (List.mem_cons_of_mem _ (List.mem_cons_of_mem _ hxu))
    · exact ih used hrest

theorem pairFlatten_length :
    ∀ ps : List (Nat × Nat), (pairFlatten ps).length = 2 * ps.length := by
  intro ps
  induction ps with
  | nil => rfl
  | cons p rest ih =>
    obtain ⟨i, j⟩ := p
    simp only [pairFlatten, List.length_cons, ih]
    omega

theorem mem_pairFlatten {x : Nat} :
    ∀ {ps : List (Nat × Nat)}, x ∈ pairFlatten ps → ∃ q ∈ ps, x = q.1 ∨ x = q.2 := by
  intro ps
  induction ps with
  | nil => intro h; simp [pairFlatten] at h
  | cons p rest ih =>
    intro h
    obtain ⟨i, j⟩ := p
    simp only [pairFlatten, List.mem_cons] at h
    rcases h with h1 | h1 | h
    · exact ⟨(i, j), List.mem_cons_self _ _, Or.inl h1⟩
    · exact ⟨(i, j), List.mem_cons_self _ _, Or.inr h1⟩
    · obtain ⟨q, hq, hx⟩ := ih h
      exact ⟨q, List.mem_cons_of_mem _ hq, hx⟩

theorem mem_allPairs {n : Nat} {q : Nat × Nat} (h : q ∈ allPairs n) :
    q.1 < q.2 ∧ q.2 < n := by
  obtain ⟨i, j⟩ := q
  simp only [allPairs, List.mem_flatMap, List.mem_filterMap, List.mem_range] at h
  obtain ⟨a, ha, b, hb, hab⟩ := h
  split at hab
  · rename_i hlt
    simp only [Option.some.injEq, Prod.mk.injEq] at hab
    obtain ⟨rfl, rfl⟩ := hab
    exact ⟨hlt, hb⟩
  · simp at hab

theorem nodup_all_lt_length_le {l : List Nat} {n : Nat}
    (hnd : l.Nodup) (hlt : ∀ x ∈ l, x < n) : l.length ≤ n := by
  have hcard : l.toFinset.card = l.length := List.toFinset_card_of_nodup hnd
  have hsub : l.toFinset ⊆ Finset.range n := fun x hx =>
    Finset.mem_range.mpr (hlt x (List.mem_toFinset.mp hx))
  have hle := Finset.card_le_card hsub
  rw [hcard, Finset.card_range] at hle
  exact hle

theorem matchedIndexPairs_def (p : ArmorParams) (angleOk : Light → Light → Bool)
    (lights : List Light) :
    matchedIndexPairs p angleOk lights =
      greedyPairs
        (fun i j => (pairType p angleOk ((sortedLights lights).getD i default)
          ((sortedLights lights).getD j default)).isSome)
        (allPairs (sortedLights lights).length) [] := rfl

theorem length_sortedLights (lights : List Light) :
    (sortedLights lights).length = lights.length :=
  List.length_insertionSort _ _

/-- `detectArmors` with debug off, in closed form. -/
theorem detectArmors_false_eq (env : CvEnv) (det : Detector)
    (cls : NumberClassifier) (store : ParamStore) (img : Image) :
    detectArmors env det cls false store img =
      { armors := frameClassified det cls store img
        trace := frameTrace det store img
        debug := none } := rfl

/-- `detectArmors` with debug on, in closed form. -/
theorem detectArmors_true_eq (env : CvEnv) (det : Detector)
    (cls : NumberClassifier) (store : ParamStore) (img : Image) :
    detectArmors env det cls true store img =
      { armors := frameResized env det cls store img
        trace := frameTrace det store img
        debug := some (frameDebugRecord env det cls store img) } := rfl

/-! Claim theorems. -/

/-- Claim C7: for every list of lights, `matchLights` returns at most
⌊|lights| / 2⌋ armors, the flattened list of consumed light indices has no
duplicate (no light is reused across two returned armors), and every
matched index pair is an ordered pair of indices into the light list. -/
theorem matchLights_card_le_half (p : ArmorParams) (angleOk : Light → Light → Bool)
    (lights : List Light) :
    (matchLights p angleOk lights).length ≤ lights.length / 2 ∧
    (pairFlatten (matchedIndexPairs p angleOk lights)).Nodup ∧
    (matchedIndexPairs p angleOk lights).Forall
      (fun q => q.1 < q.2 ∧ q.2 < lights.length) := by
  have hne : ∀ q ∈ allPairs (sortedLights lights).length, q.1 ≠ q.2 :=
    fun q hq => Nat.ne_of_lt (mem_allPairs hq).1
  have hsubset : ∀ q ∈ matchedIndexPairs p angleOk lights,
      q ∈ allPairs (sortedLights lights).length := by
    intro q hq
    rw [matchedIndexPairs_def] at hq
    exact greedyPairs_subset _ _ _ q hq
  have hbound : ∀ q ∈ matchedIndexPairs p angleOk lights,
      q.1 < q.2 ∧ q.2 < lights.length := by
    intro q hq
    have hm := mem_allPairs (hsubset q hq)
    exact ⟨hm.1, length_sortedLights lights ▸ hm.2⟩
  have hnodup : (pairFlatten (matchedIndexPairs p angleOk lights)).Nodup := by
    rw [matchedIndexPairs_def]
    exact (greedyPairs_nodup _ _ [] hne).1
  refine ⟨?_, hnodup, List.forall_iff_forall_mem.mpr hbound⟩
  have hlt : ∀ x ∈ pairFlatten (matchedIndexPairs p angleOk lights),
      x < lights.length := by
    intro x hx
    obtain ⟨q, hq, hxq⟩ := mem_pairFlatten hx
    have hb := hbound q hq
    rcases hxq with rfl | rfl
    · omega
    · exact hb.2
  have hlen := nodup_all_lt_length_le hnodup hlt
  rw [pairFlatten_length] at hlen
  have hmap : (matchLights p angleOk lights).length =
      (matchedIndexPairs p angleOk lights).length := by
    simp [matchLights]
  omega

/-- Claim C9: `calculateDistanceToCenter` is the Euclidean pixel distance to
the declared image center: it is nonnegative, its square is the squared
pixel offset from the center (cx, cy), it vanishes exactly on the center,
and at the declared center itself it returns 0. -/
theorem calculateDistanceToCenter_euclidean (dp : DepthProcessor) (pt : ℚ × ℚ) :
    0 ≤ dp.calculateDistanceToCenter pt ∧
    dp.calculateDistanceToCenter pt ^ 2 =
      ((pt.1 : ℝ) - (dp.cx : ℝ)) ^ 2 + ((pt.2 : ℝ) - (dp.cy : ℝ)) ^ 2 ∧
    (dp.calculateDistanceToCenter pt = 0 ↔
      (pt.1 : ℝ) = (dp.cx : ℝ) ∧ (pt.2 : ℝ) = (dp.cy : ℝ)) ∧
    dp.calculateDistanceToCenter (dp.cx, dp.cy) = 0 := by
  refine ⟨Real.sqrt_nonneg _, Real.sq_sqrt (by positivity), ?_, ?_⟩
  · rw [DepthProcessor.calculateDistanceToCenter,
      Real.sqrt_eq_zero (by positivity),
      add_eq_zero_iff_of_nonneg (sq_nonneg _) (sq_nonneg _),
      pow_eq_zero_iff two_ne_zero, pow_eq_zero_iff two_ne_zero,
      sub_eq_zero, sub_eq_zero]
  · rw [DepthProcessor.calculateDistanceToCenter]
    simp [Real.sqrt_zero]

/-- Claim C10: on every call, `publishMarkers` appends the position marker
to the published marker array, and that marker carries action DELETE iff
the current armors message contains no armors (ADD otherwise). -/
theorem publishMarkers_delete_iff_empty (st : MarkerState) :
    (publishMarkers st).2 =
      st.markerArray ++ [(publishMarkers st).1.positionMarker] ∧
    ((publishMarkers st).1.positionMarker.action = MarkerAction.delete ↔
      st.armorsMsgArmors = []) ∧
    ((publishMarkers st).1.positionMarker.action = MarkerAction.add ↔
      st.armorsMsgArmors ≠ []) := by
  by_cases h : st.armorsMsgArmors.isEmpty
  · have hnil : st.armorsMsgArmors = [] := by
      cases hl : st.armorsMsgArmors with
      | nil => rfl
      | cons a l => rw [hl] at h; simp at h
    simp [publishMarkers, h, hnil]
  · have hnil : st.armorsMsgArmors ≠ [] := by
      intro hc
      rw [hc] at h
      simp at h
    simp [publishMarkers, h, hnil]

/-- Claim C5: if the depth sampled at the armor's image point is NaN, zero
or negative, `getPosition` fails with `InvalidDepth` rather than returning
a fabricated position, and the armor is still returned with its 2D and
classification data, only its 3D position omitted. -/
theorem getPosition_invalid_depth (dp : DepthProcessor) (m : DepthMap) (a : Armor)
    (h : m (round (armorCenter a).1) (round (armorCenter a).2) = DepthSample.nan ∨
      ∃ d, m (round (armorCenter a).1) (round (armorCenter a).2) =
        DepthSample.val d ∧ d ≤ 0) :
    dp.getPosition m (armorCenter a) = Except.error DepthError.InvalidDepth ∧
    attachPosition dp m a = { armor := a, position := none } := by
  have herr : dp.getPosition m (armorCenter a) =
      Except.error DepthError.InvalidDepth := by
    rcases h with h | ⟨d, hd, hle⟩
    · simp [DepthProcessor.getPosition, h]
    · simp [DepthProcessor.getPosition, hd, hle]
  refine ⟨herr, ?_⟩
  simp [attachPosition, herr]

/-- Claim C5 witness: a depth map that is 0 everywhere makes `getPosition`
fail with `InvalidDepth` at the default armor's center while the armor is
returned with its position omitted. -/
theorem getPosition_invalid_depth_witness :
    DepthProcessor.getPosition ⟨500, 500, 0, 0⟩ (fun _ _ => DepthSample.val 0)
      (armorCenter default) = Except.error DepthError.InvalidDepth ∧
    attachPosition ⟨500, 500, 0, 0⟩ (fun _ _ => DepthSample.val 0) default =
      { armor := default, position := none } :=
  getPosition_invalid_depth ⟨500, 500, 0, 0⟩ (fun _ _ => DepthSample.val 0) default
    (Or.inr ⟨0, rfl, le_refl 0⟩)

/-- Claim C6: for a valid (positive, non-NaN) sampled depth d,
`getPosition` returns the pinhole back-projection
((u - cx) d / fx, (v - cy) d / fy, d). -/
theorem getPosition_pinhole (dp : DepthProcessor) (m : DepthMap)
    (pt : ℚ × ℚ) (d : ℚ)
    (hs : m (round pt.1) (round pt.2) = DepthSample.val d) (hd : 0 < d) :
    dp.getPosition m pt = Except.ok
      { x := (pt.1 - dp.cx) * d / dp.fx
        y := (pt.2 - dp.cy) * d / dp.fy
        z := d } := by
  simp [DepthProcessor.getPosition, hs, not_le.mpr hd]

/-- Claim C6 witness: with fx = fy = 500, cx = cy = 0 and constant depth 2,
image point (0, 0) maps to exactly (0, 0, 2) and image point (100, 0) to
X = 100 * 2 / 500 = 2/5 = 0.4. -/
theorem getPosition_pinhole_witness :
    DepthProcessor.getPosition ⟨500, 500, 0, 0⟩ (fun _ _ => DepthSample.val 2)
      ((0 : ℚ), (0 : ℚ)) = Except.ok { x := 0, y := 0, z := 2 } ∧
    DepthProcessor.getPosition ⟨500, 500, 0, 0⟩ (fun _ _ => DepthSample.val 2)
      ((100 : ℚ), (0 : ℚ)) = Except.ok { x := 2 / 5, y := 0, z := 2 } := by
  constructor
  · rw [getPosition_pinhole ⟨500, 500, 0, 0⟩ (fun _ _ => DepthSample.val 2)
      ((0 : ℚ), (0 : ℚ)) 2 rfl (by norm_num)]
    norm_num
  · rw [getPosition_pinhole ⟨500, 500, 0, 0⟩ (fun _ _ => DepthSample.val 2)
      ((100 : ℚ), (0 : ℚ)) 2 rfl (by norm_num)]
    norm_num

/-- Claim C3: `detectArmors` executes preprocess, findLights, matchLights
in that order, invokes number extraction and classification if and only if
the matched armor list is non-empty, and (outside debug mode, whose extra
effect on the returned numeral images is claim C1's subject) returns that
armor list. -/
theorem detectArmors_stage_order (env : CvEnv) (det : Detector)
    (cls : NumberClassifier) (store : ParamStore) (img : Image) :
    (∀ debugFlag, (detectArmors env det cls debugFlag store img).trace =
      [Stage.preprocess, Stage.findLights, Stage.matchLights] ++
      (if (frameMatched det store img).isEmpty then []
       else [Stage.extractNumbers, Stage.classify])) ∧
    (detectArmors env det cls false store img).armors =
      frameClassified det cls store img := by
  refine ⟨fun debugFlag => ?_, rfl⟩
  cases debugFlag
  · rfl
  · rfl

/-- Claim C4: a frame whose matched armor list is empty (with the
spec-modelled matcher, in particular any frame with zero lights) is an
ordinary terminal state: `detectArmors` returns the empty armor list, never
executes the extraction or classification stages, and produces a total
result — there is no failure path. -/
theorem detectArmors_empty_frame (env : CvEnv) (det : Detector)
    (cls : NumberClassifier) (debugFlag : Bool) (store : ParamStore)
    (img : Image) (p : ArmorParams) (angleOk : Light → Light → Bool)
    (hempty : frameMatched det store img = []) :
    (detectArmors env det cls debugFlag store img).armors = [] ∧
    (detectArmors env det cls debugFlag store img).trace =
      [Stage.preprocess, Stage.findLights, Stage.matchLights] ∧
    Stage.extractNumbers ∉ (detectArmors env det cls debugFlag store img).trace ∧
    Stage.classify ∉ (detectArmors env det cls debugFlag store img).trace ∧
    matchLights p angleOk [] = [] := by
  have htr : (detectArmors env det cls debugFlag store img).trace =
      [Stage.preprocess, Stage.findLights, Stage.matchLights] := by
    cases debugFlag
    · rw [detectArmors_false_eq]
      show frameTrace det store img = _
      simp [frameTrace, hempty]
    · rw [detectArmors_true_eq]
      show frameTrace det store img = _
      simp [frameTrace, hempty]
  have har : (detectArmors env det cls debugFlag store img).armors = [] := by
    cases debugFlag
    · rw [detectArmors_false_eq]
      show frameClassified det cls store img = []
      simp [frameClassified, hempty]
    · rw [detectArmors_true_eq]
      show frameResized env det cls store img = []
      simp [frameResized, frameClassified, hempty]
  refine ⟨har, htr, ?_, ?_, rfl⟩
  · rw [htr]
    decide
  · rw [htr]
    decide

/-- Claim C4 witness: a detector that finds no lights and matches no armors
yields the empty armor list and the three-stage trace, and the
spec-modelled matcher maps an empty light list to an empty armor list. -/
theorem detectArmors_empty_frame_witness :
    (detectArmors envC detEmpty clsC true storeC 0).armors = [] ∧
    (detectArmors envC detEmpty clsC true storeC 0).trace =
      [Stage.preprocess, Stage.findLights, Stage.matchLights] ∧
    Stage.extractNumbers ∉ (detectArmors envC detEmpty clsC true storeC 0).trace ∧
    Stage.classify ∉ (detectArmors envC detEmpty clsC true storeC 0).trace ∧
    matchLights paramsC (fun _ _ => true) [] = [] :=
  detectArmors_empty_frame envC detEmpty clsC true storeC 0 paramsC
    (fun _ _ => true) rfl

/-- Claim C8: whenever debug output is enabled, the published debug light
records and debug armor records are sorted in ascending `center_x`. -/
theorem detectArmors_debug_sorted (env : CvEnv) (det : Detector)
    (cls : NumberClassifier) (store : ParamStore) (img : Image) :
    (detectArmors env det cls true store img).debug.isSome = true ∧
    List.Sorted debugLightLe
      (((detectArmors env det cls true store img).debug.map
        DebugRecord.debugLights).getD []) ∧
    List.Sorted debugArmorLe
      (((detectArmors env det cls true store img).debug.map
        DebugRecord.debugArmors).getD []) := by
  rw [detectArmors_true_eq]
  refine ⟨rfl, ?_, ?_⟩
  · show List.Sorted debugLightLe
      (List.insertionSort debugLightLe (frameDebugLights det store img))
    exact List.sorted_insertionSort _ _
  · show List.Sorted debugArmorLe
      (List.insertionSort debugArmorLe (frameDebugArmors det store img))
    exact List.sorted_insertionSort _ _

/-- Claim C1 fails as stated: with debug enabled, the in-place
`cv::resize` at line 162 rewrites each returned armor's numeral image, so
the returned armor list differs between the debug and non-debug runs on
the same frame. -/
theorem detectArmors_debug_changes_output :
    (detectArmors envC detC clsC true storeC 0).armors ≠
      (detectArmors envC detC clsC false storeC 0).armors := by
  intro h
  have h1 : (20 : Nat) = 10 := by
    calc (20 : Nat)
        = ((detectArmors envC detC clsC true storeC 0).armors.map
            (fun a => a.numberImg.width)).headD 0 := rfl
      _ = ((detectArmors envC detC clsC false storeC 0).armors.map
            (fun a => a.numberImg.width)).headD 0 := by rw [h]
      _ = 10 := rfl
  exact absurd h1 (by decide)

/-- Claim C1 (amended): debug telemetry never affects control flow (the
stage traces coincide) nor any returned armor field other than the numeral
image; its only effect on the returned list is resizing each armor's
numeral image in place to 20x28. -/
theorem detectArmors_debug_sidechannel (env : CvEnv) (det : Detector)
    (cls : NumberClassifier) (store : ParamStore) (img : Image) :
    (detectArmors env det cls true store img).armors.map Armor.eraseImg =
      (detectArmors env det cls false store img).armors.map Armor.eraseImg ∧
    (detectArmors env det cls true store img).trace =
      (detectArmors env det cls false store img).trace ∧
    (detectArmors env det cls true store img).armors.map Armor.numberImg =
      (detectArmors env det cls false store img).armors.map
        (fun a => cvResize env a.numberImg 20 28) := by
  rw [detectArmors_true_eq, detectArmors_false_eq]
  refine ⟨?_, rfl, ?_⟩
  · show (frameResized env det cls store img).map Armor.eraseImg =
      (frameClassified det cls store img).map Armor.eraseImg
    simp only [frameResized]
    split
    · rfl
    · rw [List.map_map]
      exact List.map_congr_left fun a _ => rfl
  · show (frameResized env det cls store img).map Armor.numberImg =
      (frameClassified det cls store img).map
        fun a => cvResize env a.numberImg 20 28
    simp only [frameResized]
    split
    · rename_i he
      rw [List.isEmpty_iff.mp he]
      rfl
    · rw [List.map_map]
      exact List.map_congr_left fun a _ => rfl

/-- Claim C2 fails as stated: `classifier.threshold` is read mid-frame
(line 132), so two parameter stores that agree on every value at frame
start can still produce different frame outputs when the threshold changes
before the mid-frame read. -/
theorem detectArmors_threshold_reread :
    storeC.minLightness frameStart = storeD.minLightness frameStart ∧
    storeC.detectColor frameStart = storeD.detectColor frameStart ∧
    storeC.classifierThreshold frameStart = storeD.classifierThreshold frameStart ∧
    detectArmors envC detC clsC false storeC 0 ≠
      detectArmors envC detC clsC false storeD 0 := by
  refine ⟨rfl, rfl, rfl, ?_⟩
  intro h
  have h1 : (1 : Nat) = 0 := by
    calc (1 : Nat)
        = (detectArmors envC detC clsC false storeC 0).armors.length := rfl
      _ = (detectArmors envC detC clsC false storeD 0).armors.length := by rw [h]
      _ = 0 := rfl
  exact absurd h1 (by decide)

/-- Claim C2 (amended): `min_lightness` and `detect_color` are read once at
frame start (lines 122-123) and `classifier.threshold` once mid-frame at
classification time (line 132); each stage sees a single consistent value,
and the frame output depends only on those three read values — but the
threshold used is the value at classification time, not part of a
frame-start snapshot. -/
theorem detectArmors_param_reads (env : CvEnv) (det : Detector)
    (cls : NumberClassifier) (debugFlag : Bool) (s t : ParamStore) (img : Image)
    (h1 : s.minLightness frameStart = t.minLightness frameStart)
    (h2 : s.detectColor frameStart = t.detectColor frameStart)
    (h3 : s.classifierThreshold classifyTime = t.classifierThreshold classifyTime) :
    detectArmors env det cls debugFlag s img =
      detectArmors env det cls debugFlag t img := by
  simp only [detectArmors, h1, h2, h3]

/-- Claim C2 (amended) witness: a store whose threshold agrees with
`storeC` only at the classification-time read instant produces the same
frame output as `storeC`. -/
theorem detectArmors_param_reads_witness :
    detectArmors envC detC clsC false storeE 0 =
      detectArmors envC detC clsC false storeC 0 :=
  detectArmors_param_reads envC detC clsC false storeE storeC 0 rfl rfl rfl

end RmAutoAim
